import Mathlib

/-!
# Verification of `notes_database/init_db.py`

A shallow embedding of the SQLite initialization script
`src/notes_database/init_db.py` together with proofs about its behaviour.

The script is a single linear procedure:
connect → `PRAGMA foreign_keys = ON` → `BEGIN` → create `app_info` and
`users` if absent → upsert four seed rows into `app_info` → check for a
`notes` table → if absent, read `migrations/001_create_notes.sql` and run it
via `conn.executescript` → `COMMIT` → gather stats → write two auxiliary
files (best effort) → print a status line.

The embedding models the database as the multiset of user-defined tables
plus the row contents of `app_info` and `users` (row ids and the
`created_at` timestamps — nondeterministic autoincrement counters and wall
clock values — are abstracted away; the `key` column is UNIQUE, so a row is
identified by its key).  The filesystem environment (presence of the
database file and of the migration file, writability of the auxiliary
outputs, the working directory) is a `World`.

Two library semantics of Python's `sqlite3` module are modelled exactly,
since the control flow of the script depends on them:

* `Connection.executescript` first issues an implicit `COMMIT` of any
  pending transaction, and then runs the script's statements in autocommit
  mode (the script itself contains no transaction control — migrations are
  plain DDL/DML statement lists).  Consequently, after `executescript` no
  transaction is active, and the script's subsequent explicit
  `cursor.execute("COMMIT")` raises
  `sqlite3.OperationalError: cannot commit - no transaction is active`.
* Closing a connection with an open (uncommitted) transaction rolls the
  transaction back.

A migration file's content is modelled by its effect on the database
state, a function `DB → DB` (the script is applied verbatim by
`executescript`; an absent file is `Option.none`).
-/

namespace InitDb

/-- `DB_NAME = "myapp.db"` (init_db.py line 17). -/
def DB_NAME : String := "myapp.db"

/-- `MIGRATIONS_DIR = "migrations"` (line 22). -/
def MIGRATIONS_DIR : String := "migrations"

/-- `NOTES_MIGRATION_FILE = os.path.join(MIGRATIONS_DIR, "001_create_notes.sql")`
(line 23). -/
def NOTES_MIGRATION_FILE : String := MIGRATIONS_DIR ++ "/" ++ "001_create_notes.sql"

/-- A row of the `app_info` table: `key TEXT UNIQUE NOT NULL, value TEXT`
(lines 48-55).  The autoincrement `id` and the defaulted `created_at`
timestamp are abstracted away; `key` is UNIQUE so it identifies the row. -/
structure AppInfoRow where
  key : String
  value : String
deriving DecidableEq, Repr

/-- A row of the `users` table: `username TEXT UNIQUE NOT NULL`,
`email TEXT UNIQUE NOT NULL` (lines 56-63).  The procedure never inserts,
updates or deletes such rows. -/
structure UserRow where
  username : String
  email : String
deriving DecidableEq, Repr

/-- The database state: the list of user-defined tables as recorded in
`sqlite_master` (tables whose name does not start with `sqlite_`, in
creation order), and the row contents of the two tables the procedure
manipulates. -/
structure DB where
  tables : List String
  app_info : List AppInfoRow
  users : List UserRow
deriving DecidableEq, Repr

/-- The empty database produced by `sqlite3.connect` on a fresh file. -/
def emptyDB : DB := { tables := [], app_info := [], users := [] }

/-- `CREATE TABLE IF NOT EXISTS name (...)` (lines 48-63): registers the
table name in `sqlite_master` when absent, otherwise does nothing. -/
def createTableIfNotExists (name : String) (d : DB) : DB :=
  if d.tables.contains name then d else { d with tables := d.tables ++ [name] }

/-- The row-level effect of
`INSERT OR REPLACE INTO app_info (key, value) VALUES (?, ?)`:
SQLite deletes any existing row that conflicts on the UNIQUE `key` column
and inserts the new row (at a fresh rowid, hence at the end). -/
def upsertKV (k v : String) (rows : List AppInfoRow) : List AppInfoRow :=
  rows.filter (fun r => r.key != k) ++ [⟨k, v⟩]

/-- `INSERT OR REPLACE INTO app_info (key, value) VALUES (?, ?)` on the
database state (lines 66-73). -/
def insertOrReplaceAppInfo (k v : String) (d : DB) : DB :=
  { d with app_info := upsertKV k v d.app_info }

/-- The four seed upserts of lines 66-73, in source order:
`project_name`, `version`, `author`, `description`. -/
def seedAppInfo (d : DB) : DB :=
  insertOrReplaceAppInfo "description" "" <|
  insertOrReplaceAppInfo "author" "John Doe" <|
  insertOrReplaceAppInfo "version" "0.1.0" <|
  insertOrReplaceAppInfo "project_name" "notes_database" d

/-- The four seed upserts, as a function on the `app_info` row list. -/
def seedKV (rows : List AppInfoRow) : List AppInfoRow :=
  upsertKV "description" "" <|
  upsertKV "author" "John Doe" <|
  upsertKV "version" "0.1.0" <|
  upsertKV "project_name" "notes_database" rows

/-- The four fixed seed keys. -/
def seedKeys : List String := ["project_name", "version", "author", "description"]

/-- The four seed rows, in the order the upserts leave them in on a fresh
`app_info` table. -/
def seedRows : List AppInfoRow :=
  [⟨"project_name", "notes_database"⟩, ⟨"version", "0.1.0"⟩,
   ⟨"author", "John Doe"⟩, ⟨"description", ""⟩]

/-- The semantics of a migration file's content: its effect on the
database state when executed by `conn.executescript` (line 86).  The
content is an external input, consumed verbatim. -/
def Script : Type := DB → DB

/-- A well-formed notes migration: `CREATE TABLE notes (...)` (plus
possibly indexes), creating the `notes` table and touching nothing else. -/
def createNotesScript : Script := fun d =>
  { d with tables := d.tables ++ ["notes"] }

/-- A migration file whose statements do not create a table named
`notes` (it creates an unrelated table `misc`). -/
def createMiscScript : Script := fun d =>
  { d with tables := d.tables ++ ["misc"] }

/-- The ways a run of the script can terminate with an uncaught Python
exception (non-zero process exit). -/
inductive RunError where
  /-- The `FileNotFoundError` re-raised at lines 88-92 when the migration
  file is absent — the realization of the spec's `MigrationNotFoundError`.
  Carries the exception message. -/
  | fileNotFound (msg : String)
  /-- `sqlite3.OperationalError`, e.g. from `cursor.execute("COMMIT")`
  when no transaction is active (line 95). -/
  | operationalError (msg : String)
  /-- An `OSError` escaping `os.makedirs("db_visualizer")` (line 127),
  e.g. permission denied; carries the path. -/
  | osError (msg : String)
deriving DecidableEq, Repr

/-- The filesystem environment of one run, as the script observes it from
its working directory. -/
structure World where
  /-- Content of the database file `myapp.db`, `none` when the file is
  absent (`os.path.exists(DB_NAME)`, line 31). -/
  dbFile : Option DB
  /-- Content of `migrations/001_create_notes.sql` as its execution
  semantics; `none` when the file is absent. -/
  migrationFile : Option Script
  /-- `os.getcwd()` (line 109), an absolute directory path. -/
  cwd : String
  /-- Whether opening `db_connection.txt` for writing succeeds (line 113). -/
  connWritable : Bool
  /-- Whether the directory `db_visualizer` already exists (line 126). -/
  vizDirExists : Bool
  /-- Whether `os.makedirs("db_visualizer")` succeeds (line 127). -/
  vizDirCreatable : Bool
  /-- Whether opening `db_visualizer/sqlite.env` for writing succeeds
  (line 131). -/
  envWritable : Bool

/-- The database content of a world (`emptyDB` when the file is absent). -/
def dbOf (w : World) : DB := w.dbFile.getD emptyDB

/-- The observable outcome of one run: the committed database state at
process exit, trace flags for the migration handling, the auxiliary files
written, the warnings printed, the final status line (when reached), and
the uncaught exception (when the run fails). -/
structure RunResult where
  /-- The committed content of `myapp.db` when the process exits. -/
  db : DB
  /-- `db_exists` (line 31): the database file pre-existed. -/
  db_exists : Bool
  /-- Whether `open(NOTES_MIGRATION_FILE)` succeeded (lines 83-84): the
  migration file was opened and read during this run. -/
  migrationOpened : Bool
  /-- Whether `conn.executescript(migration_sql)` ran (line 86). -/
  migrationExecuted : Bool
  /-- The `created_notes` flag (lines 79, 87). -/
  created_notes : Bool
  /-- Whether `cursor.execute("COMMIT")` (line 95) executed successfully. -/
  commitSucceeded : Bool
  /-- The lines written to `db_connection.txt`, when the write succeeded
  (lines 113-117). -/
  dbConnectionTxt : Option (List String)
  /-- The line written to `db_visualizer/sqlite.env`, when the write
  succeeded (lines 131-132). -/
  sqliteEnv : Option String
  /-- Whether this run created the `db_visualizer` directory. -/
  vizDirCreated : Bool
  /-- The warnings printed for auxiliary-output failures (lines 120, 135). -/
  warnings : List String
  /-- The final pipe-delimited status line (line 145), `none` when the run
  dies before printing it. -/
  statusLine : Option String
  /-- The uncaught exception terminating the run, `none` on success
  (process exit code 0). -/
  error : Option RunError
deriving DecidableEq, Repr

/-- The `notes_table` field of the status line, exactly as written on
line 143: `"created" if not db_exists and created_notes or (created_notes)
else "ready"` (Python precedence:
`(not db_exists and created_notes) or created_notes`). -/
def status_notes_table (db_exists created_notes : Bool) : String :=
  if (!db_exists && created_notes) || created_notes then "created" else "ready"

/-- The final status line (lines 138-145): the `status_parts` joined by
`" | "`. -/
def statusMessage (db_exists created_notes : Bool) (table_count record_count : Nat) :
    String :=
  String.intercalate " | "
    ["SQLite setup complete", "DB=" ++ DB_NAME,
     "tables=" ++ toString table_count,
     "app_info_records=" ++ toString record_count,
     "notes_table=" ++ status_notes_table db_exists created_notes]

/-- A single-quote character, for the Python connect hint line. -/
def sq : String := (Char.ofNat 39).toString

/-- The four `\n`-terminated lines written to `db_connection.txt`
(lines 114-117), with `current_dir = os.getcwd()` and
`connection_string = f"sqlite:///{current_dir}/{DB_NAME}"` (line 110). -/
def dbConnectionLines (cwd : String) : List String :=
  ["# SQLite connection methods:",
   "# Python: sqlite3.connect(" ++ sq ++ DB_NAME ++ sq ++ ")",
   "# Connection string: sqlite:///" ++ cwd ++ "/" ++ DB_NAME,
   "# File path: " ++ cwd ++ "/" ++ DB_NAME]

/-- The line written to `db_visualizer/sqlite.env` (line 132), with
`db_path = os.path.abspath(DB_NAME)`. -/
def sqliteEnvLine (cwd : String) : String :=
  "export SQLITE_DB=\"" ++ cwd ++ "/" ++ DB_NAME ++ "\""

/-- The pending state of the explicit transaction right after the seed
upserts (lines 45-73): `BEGIN`, the two `CREATE TABLE IF NOT EXISTS`
statements in source order, then the four upserts, applied to the
committed database `d` the connection opened. -/
def basePending (d : DB) : DB :=
  seedAppInfo (createTableIfNotExists "users" (createTableIfNotExists "app_info" d))

/-- The tail of a run that reached the `COMMIT` successfully (lines
95-146): statistics queries, the two best-effort auxiliary files, the
`db_visualizer` directory, and the status line.  `d` is the committed
database state.  On this path `migration_sql` was never executed, so
`migrationOpened`, `migrationExecuted` and `created_notes` are passed in
by the caller. -/
def finishRun (w : World) (db_exists : Bool) (d : DB)
    (migrationOpened migrationExecuted created_notes : Bool) : RunResult :=
  -- line 98: SELECT COUNT(*) FROM sqlite_master WHERE type='table'
  --          AND name NOT LIKE 'sqlite_%'
  let table_count := d.tables.length
  -- lines 102-106: SELECT COUNT(*) FROM app_info, 0 when the table is
  -- missing (sqlite3.Error caught)
  let record_count := if d.tables.contains "app_info" then d.app_info.length else 0
  -- lines 112-120: write db_connection.txt, warning on failure
  let connFile := if w.connWritable then some (dbConnectionLines w.cwd) else none
  let warns1 : List String :=
    if w.connWritable then [] else ["Warning: Could not save connection info"]
  -- lines 126-128: os.makedirs("db_visualizer") runs outside any
  -- try/except; an OSError there propagates and kills the run
  if !w.vizDirExists && !w.vizDirCreatable then
    { db := d, db_exists := db_exists, migrationOpened := migrationOpened,
      migrationExecuted := migrationExecuted, created_notes := created_notes,
      commitSucceeded := true, dbConnectionTxt := connFile, sqliteEnv := none,
      vizDirCreated := false, warnings := warns1, statusLine := none,
      error := some (.osError "db_visualizer") }
  else
    -- lines 130-135: write db_visualizer/sqlite.env, warning on failure
    let env := if w.envWritable then some (sqliteEnvLine w.cwd) else none
    let warns2 := warns1 ++
      (if w.envWritable then [] else ["Warning: Could not save environment variables"])
    { db := d, db_exists := db_exists, migrationOpened := migrationOpened,
      migrationExecuted := migrationExecuted, created_notes := created_notes,
      commitSucceeded := true, dbConnectionTxt := connFile, sqliteEnv := env,
      vizDirCreated := !w.vizDirExists && w.vizDirCreatable, warnings := warns2,
      statusLine := some (statusMessage db_exists created_notes table_count record_count),
      error := none }

/-- One run of `init_db.py` on the world `w`, following the source line by
line.  `sqlite3.connect` opens the existing file or creates an empty
database; `PRAGMA foreign_keys = ON` is session-scoped and precedes every
schema operation; `BEGIN` opens an explicit transaction whose pending
changes are the base tables and the seed upserts. -/
def run (w : World) : RunResult :=
  -- line 31: db_exists = os.path.exists(DB_NAME)
  let db_exists := w.dbFile.isSome
  -- line 38: sqlite3.connect(DB_NAME)
  let committed := dbOf w
  -- lines 45-73: BEGIN; CREATE TABLE IF NOT EXISTS app_info, users;
  -- four seed upserts — all pending in the open transaction
  let pending := basePending committed
  -- lines 76-77: the cursor sees its own pending changes
  let notes_exists := pending.tables.contains "notes"
  if notes_exists then
    -- created_notes stays False; line 95 COMMIT succeeds (transaction open)
    finishRun w db_exists pending false false false
  else
    match w.migrationFile with
    | none =>
      -- lines 83, 88-92: open() raises FileNotFoundError, re-raised with a
      -- message naming the expected path; the connection closes with the
      -- transaction open, rolling the pending changes back
      { db := committed, db_exists := db_exists, migrationOpened := false,
        migrationExecuted := false, created_notes := false, commitSucceeded := false,
        dbConnectionTxt := none, sqliteEnv := none, vizDirCreated := false,
        warnings := [], statusLine := none,
        error := some (.fileNotFound ("Required migration not found: " ++ NOTES_MIGRATION_FILE)) }
    | some script =>
      -- line 86: conn.executescript first implicitly COMMITs the pending
      -- transaction, then runs the script statements in autocommit mode;
      -- line 87 sets created_notes = True; line 95 COMMIT then finds no
      -- active transaction and raises sqlite3.OperationalError, which
      -- propagates (non-zero exit, no status line, no auxiliary files)
      let committed2 := script pending
      { db := committed2, db_exists := db_exists, migrationOpened := true,
        migrationExecuted := true, created_notes := true, commitSucceeded := false,
        dbConnectionTxt := none, sqliteEnv := none, vizDirCreated := false,
        warnings := [], statusLine := none,
        error := some (.operationalError "cannot commit - no transaction is active") }

/-- The world after a run: the database file now exists with the committed
content (even a rolled-back fresh run leaves an empty database file), the
`db_visualizer` directory persists once created, and the migration file on
disk is untouched. -/
def worldAfter (w : World) (r : RunResult) : World :=
  { w with dbFile := some r.db, vizDirExists := w.vizDirExists || r.vizDirCreated }

/-- `n` successive runs of the script from the world `w`. -/
def runs : Nat → World → World
  | 0, w => w
  | n + 1, w => runs n (worldAfter w (run w))

/-- Scenario A of the spec: a fresh empty directory (no database file)
with a valid migration file creating `notes(id, title, body)`; all
auxiliary outputs writable. -/
def scenarioAWorld : World :=
  { dbFile := none, migrationFile := some createNotesScript, cwd := "/workspace",
    connWritable := true, vizDirExists := false, vizDirCreatable := true,
    envWritable := true }

/-- Scenario C of the spec: a fresh empty directory with the migration
file absent. -/
def scenarioCWorld : World :=
  { dbFile := none, migrationFile := none, cwd := "/workspace",
    connWritable := true, vizDirExists := false, vizDirCreatable := true,
    envWritable := true }

/-- The database after a completed initialization: all three tables
present, `app_info` seeded. -/
def initializedDB : DB :=
  { tables := ["app_info", "users", "notes"], app_info := seedRows, users := [] }

/-- A directory holding an initialized database with the `db_visualizer`
directory absent and not creatable (e.g. the working directory became
read-only), and `sqlite.env` unwritable. -/
def vizDenyWorld : World :=
  { dbFile := some initializedDB, migrationFile := some createNotesScript,
    cwd := "/workspace", connWritable := true, vizDirExists := false,
    vizDirCreatable := false, envWritable := false }

/-- A directory holding an initialized database where both auxiliary file
writes fail but the `db_visualizer` directory already exists. -/
def auxDenyWorld : World :=
  { dbFile := some initializedDB, migrationFile := some createNotesScript,
    cwd := "/workspace", connWritable := false, vizDirExists := true,
    vizDirCreatable := false, envWritable := false }

/-- A database in which `notes` exists and `app_info` holds a stale row
for the seed key `version`. -/
def staleVersionDB : DB :=
  { tables := ["app_info", "users", "notes"],
    app_info := [⟨"version", "0.0.9"⟩, ⟨"custom", "kept"⟩], users := [⟨"alice", "a@x"⟩] }

/-- A world holding `staleVersionDB`, with all auxiliary outputs fine. -/
def staleVersionWorld : World :=
  { dbFile := some staleVersionDB, migrationFile := none, cwd := "/workspace",
    connWritable := true, vizDirExists := true, vizDirCreatable := true,
    envWritable := true }

/-- A fresh directory whose migration file does not create a `notes`
table. -/
def miscMigrationWorld : World :=
  { dbFile := none, migrationFile := some createMiscScript, cwd := "/workspace",
    connWritable := true, vizDirExists := false, vizDirCreatable := true,
    envWritable := true }

/-! ## Basic lemmas about the embedded operations -/

theorem contains_append_single (l : List String) (a b : String) :
    (l ++ [b]).contains a = (l.contains a || a == b) := by
  simp only [List.contains, List.elem_eq_mem, List.mem_append, List.mem_singleton]
  cases hab : a == b
  · simp [ne_of_beq_false hab]
  · simp [eq_of_beq hab]

theorem contains_eq_true_iff_mem (l : List String) (a : String) :
    l.contains a = true ↔ a ∈ l := by
  simp [List.contains, List.elem_eq_mem]

theorem tables_seedAppInfo (d : DB) : (seedAppInfo d).tables = d.tables := rfl

theorem users_seedAppInfo (d : DB) : (seedAppInfo d).users = d.users := rfl

theorem app_info_seedAppInfo (d : DB) : (seedAppInfo d).app_info = seedKV d.app_info := rfl

theorem users_createTable (n : String) (d : DB) :
    (createTableIfNotExists n d).users = d.users := by
  unfold createTableIfNotExists; split <;> rfl

theorem app_info_createTable (n : String) (d : DB) :
    (createTableIfNotExists n d).app_info = d.app_info := by
  unfold createTableIfNotExists; split <;> rfl

theorem contains_createTable (n m : String) (h : (m == n) = false) (d : DB) :
    (createTableIfNotExists n d).tables.contains m = d.tables.contains m := by
  unfold createTableIfNotExists; split
  · rfl
  · rw [contains_append_single, h, Bool.or_false]

theorem basePending_contains_notes (d : DB) :
    (basePending d).tables.contains "notes" = d.tables.contains "notes" := by
  unfold basePending
  rw [tables_seedAppInfo, contains_createTable _ _ (by decide),
      contains_createTable _ _ (by decide)]

theorem basePending_users (d : DB) : (basePending d).users = d.users := by
  unfold basePending
  rw [users_seedAppInfo, users_createTable, users_createTable]

theorem basePending_app_info (d : DB) : (basePending d).app_info = seedKV d.app_info := by
  unfold basePending
  rw [app_info_seedAppInfo, app_info_createTable, app_info_createTable]

/-! ## Case lemmas describing one run -/

/-- When `notes` already exists, the run commits the base transaction and
proceeds to the reporting tail, never touching the migration. -/
theorem run_of_notes_present (w : World)
    (h : (dbOf w).tables.contains "notes" = true) :
    run w = finishRun w w.dbFile.isSome (basePending (dbOf w)) false false false := by
  have hb : "notes" ∈ (basePending (dbOf w)).tables :=
    (contains_eq_true_iff_mem _ _).mp (by rw [basePending_contains_notes]; exact h)
  simp [run, hb]

/-- When `notes` is absent and the migration file is missing, the run dies
with the re-raised `FileNotFoundError` and the transaction rolls back. -/
theorem run_of_migration_missing (w : World)
    (h : (dbOf w).tables.contains "notes" = false)
    (hmig : w.migrationFile = none) :
    run w =
      { db := dbOf w, db_exists := w.dbFile.isSome, migrationOpened := false,
        migrationExecuted := false, created_notes := false, commitSucceeded := false,
        dbConnectionTxt := none, sqliteEnv := none, vizDirCreated := false,
        warnings := [], statusLine := none,
        error := some (.fileNotFound
          ("Required migration not found: " ++ NOTES_MIGRATION_FILE)) } := by
  have hb : "notes" ∉ (basePending (dbOf w)).tables := by
    intro hmem
    rw [← contains_eq_true_iff_mem, basePending_contains_notes, h] at hmem
    exact absurd hmem (by decide)
  simp [run, hb, hmig]

/-- When `notes` is absent and the migration file is present, the script
runs (after `executescript` implicitly commits the pending transaction)
and the run then dies at the explicit `COMMIT`. -/
theorem run_of_migration_present (w : World) (s : Script)
    (h : (dbOf w).tables.contains "notes" = false)
    (hmig : w.migrationFile = some s) :
    run w =
      { db := s (basePending (dbOf w)), db_exists := w.dbFile.isSome,
        migrationOpened := true, migrationExecuted := true, created_notes := true,
        commitSucceeded := false, dbConnectionTxt := none, sqliteEnv := none,
        vizDirCreated := false, warnings := [], statusLine := none,
        error := some (.operationalError "cannot commit - no transaction is active") } := by
  have hb : "notes" ∉ (basePending (dbOf w)).tables := by
    intro hmem
    rw [← contains_eq_true_iff_mem, basePending_contains_notes, h] at hmem
    exact absurd hmem (by decide)
  simp [run, hb, hmig]

/-! ## Field lemmas for the reporting tail -/

theorem finishRun_db (w : World) (e : Bool) (d : DB) (mo me cn : Bool) :
    (finishRun w e d mo me cn).db = d := by
  simp only [finishRun]; split <;> rfl

theorem finishRun_migrationOpened (w : World) (e : Bool) (d : DB) (mo me cn : Bool) :
    (finishRun w e d mo me cn).migrationOpened = mo := by
  simp only [finishRun]; split <;> rfl

theorem finishRun_migrationExecuted (w : World) (e : Bool) (d : DB) (mo me cn : Bool) :
    (finishRun w e d mo me cn).migrationExecuted = me := by
  simp only [finishRun]; split <;> rfl

theorem finishRun_commitSucceeded (w : World) (e : Bool) (d : DB) (mo me cn : Bool) :
    (finishRun w e d mo me cn).commitSucceeded = true := by
  simp only [finishRun]; split <;> rfl

theorem finishRun_created_notes (w : World) (e : Bool) (d : DB) (mo me cn : Bool) :
    (finishRun w e d mo me cn).created_notes = cn := by
  simp only [finishRun]; split <;> rfl

/-- The reporting tail on the path where the `db_visualizer` directory is
available (already present or creatable): the run succeeds and prints the
status line. -/
theorem finishRun_of_viz_ok (w : World) (e : Bool) (d : DB) (mo me cn : Bool)
    (h : (w.vizDirExists || w.vizDirCreatable) = true) :
    finishRun w e d mo me cn =
      { db := d, db_exists := e, migrationOpened := mo, migrationExecuted := me,
        created_notes := cn, commitSucceeded := true,
        dbConnectionTxt := if w.connWritable then some (dbConnectionLines w.cwd) else none,
        sqliteEnv := if w.envWritable then some (sqliteEnvLine w.cwd) else none,
        vizDirCreated := !w.vizDirExists && w.vizDirCreatable,
        warnings :=
          (if w.connWritable then [] else ["Warning: Could not save connection info"]) ++
          (if w.envWritable then [] else ["Warning: Could not save environment variables"]),
        statusLine := some (statusMessage e cn d.tables.length
          (if d.tables.contains "app_info" then d.app_info.length else 0)),
        error := none } := by
  have h2 : (!w.vizDirExists && !w.vizDirCreatable) = false := by
    cases hx : w.vizDirExists <;> cases hy : w.vizDirCreatable <;> simp_all
  simp only [finishRun, h2, if_false, Bool.false_eq_true]

/-- The reporting tail on the path where the `db_visualizer` directory is
absent and `os.makedirs` fails: the `OSError` propagates and the status
line is never printed. -/
theorem finishRun_of_viz_denied (w : World) (e : Bool) (d : DB) (mo me cn : Bool)
    (h1 : w.vizDirExists = false) (h2 : w.vizDirCreatable = false) :
    finishRun w e d mo me cn =
      { db := d, db_exists := e, migrationOpened := mo, migrationExecuted := me,
        created_notes := cn, commitSucceeded := true,
        dbConnectionTxt := if w.connWritable then some (dbConnectionLines w.cwd) else none,
        sqliteEnv := none, vizDirCreated := false,
        warnings := if w.connWritable then [] else ["Warning: Could not save connection info"],
        statusLine := none, error := some (.osError "db_visualizer") } := by
  simp only [finishRun, h1, h2, Bool.not_false, Bool.and_self, if_true]

/-! ## Claim C1 -/

/-- **C1**: if no table named `notes` exists in the database and the
migration file `migrations/001_create_notes.sql` is absent, the run raises
the spec's `MigrationNotFoundError` (realized as a `FileNotFoundError`)
whose message names the expected path, the process terminates with that
uncaught error (non-zero exit, no status line), the explicit `COMMIT` is
never executed, and the database content is exactly what it was before the
run — in particular no schema change for the `notes` table is committed. -/
theorem missing_migration_is_fatal (w : World)
    (hnotes : (dbOf w).tables.contains "notes" = false)
    (hmig : w.migrationFile = none) :
    (run w).error = some (RunError.fileNotFound
      ("Required migration not found: " ++ NOTES_MIGRATION_FILE)) ∧
    (run w).commitSucceeded = false ∧
    (run w).statusLine = none ∧
    (run w).db = dbOf w ∧
    (run w).db.tables.contains "notes" = false := by
  rw [run_of_migration_missing w hnotes hmig]
  exact ⟨rfl, rfl, rfl, rfl, hnotes⟩

/-- Witness for `missing_migration_is_fatal` at Scenario C's world: a
fresh empty directory with no migration file. -/
theorem missing_migration_is_fatal_witness :
    ((dbOf scenarioCWorld).tables.contains "notes" = false ∧
     scenarioCWorld.migrationFile = none) ∧
    ((run scenarioCWorld).error = some (RunError.fileNotFound
      ("Required migration not found: " ++ NOTES_MIGRATION_FILE)) ∧
     (run scenarioCWorld).commitSucceeded = false ∧
     (run scenarioCWorld).statusLine = none ∧
     (run scenarioCWorld).db = dbOf scenarioCWorld ∧
     (run scenarioCWorld).db.tables.contains "notes" = false) :=
  ⟨⟨by decide, rfl⟩, missing_migration_is_fatal scenarioCWorld (by decide) rfl⟩

/-! ## Claim C4 -/

/-- **C4**: on every run in which a `notes` table already exists at the
catalog check, the migration file is never opened, read, or executed —
regardless of the migration file's content, which is unconstrained here —
and the procedure neither re-creates nor alters the `notes` table: the
run's only effect on the table catalog is the pair of idempotent
`CREATE TABLE IF NOT EXISTS` statements for `app_info` and `users`, and
`notes` is still present afterwards. -/
theorem notes_presence_gates_migration (w : World)
    (hnotes : (dbOf w).tables.contains "notes" = true) :
    (run w).migrationOpened = false ∧
    (run w).migrationExecuted = false ∧
    (run w).created_notes = false ∧
    (run w).db = basePending (dbOf w) ∧
    (run w).db.tables =
      (createTableIfNotExists "users" (createTableIfNotExists "app_info" (dbOf w))).tables ∧
    (run w).db.tables.contains "notes" = true := by
  rw [run_of_notes_present w hnotes]
  refine ⟨finishRun_migrationOpened _ _ _ _ _ _, finishRun_migrationExecuted _ _ _ _ _ _,
    finishRun_created_notes _ _ _ _ _ _, finishRun_db _ _ _ _ _ _, ?_, ?_⟩
  · rw [finishRun_db]
    unfold basePending
    rw [tables_seedAppInfo]
  · rw [finishRun_db, basePending_contains_notes]
    exact hnotes

/-- Witness for `notes_presence_gates_migration` at an initialized
database (the migration file is present, with arbitrary content). -/
theorem notes_presence_gates_migration_witness :
    (dbOf auxDenyWorld).tables.contains "notes" = true ∧
    ((run auxDenyWorld).migrationOpened = false ∧
     (run auxDenyWorld).migrationExecuted = false ∧
     (run auxDenyWorld).created_notes = false ∧
     (run auxDenyWorld).db = basePending (dbOf auxDenyWorld) ∧
     (run auxDenyWorld).db.tables =
       (createTableIfNotExists "users"
         (createTableIfNotExists "app_info" (dbOf auxDenyWorld))).tables ∧
     (run auxDenyWorld).db.tables.contains "notes" = true) :=
  ⟨by decide, notes_presence_gates_migration auxDenyWorld (by decide)⟩

/-! ## Claim C7 -/

/-- **C7**: in the status line, the `notes_table` field reports
`"created"` exactly when `created_notes` is true and `"ready"` otherwise,
and `db_exists` has no effect on it: the source expression
`not db_exists and created_notes or (created_notes)` (line 143) is
equivalent to `created_notes` for all boolean values of the two flags. -/
theorem status_notes_table_redundant (db_exists created_notes : Bool) :
    status_notes_table db_exists created_notes =
      (if created_notes then "created" else "ready") ∧
    (status_notes_table db_exists created_notes = "created" ↔ created_notes = true) ∧
    status_notes_table true created_notes = status_notes_table false created_notes := by
  cases db_exists <;> cases created_notes <;> decide

/-! ## Claim C5 -/

/-- **C5** (code bug): Scenario A — a fresh empty directory with a valid
migration file creating `notes` — does NOT complete successfully.
`conn.executescript` first implicitly commits the open transaction, so the
explicit `COMMIT` of line 95 finds no active transaction and raises
`sqlite3.OperationalError`; the run terminates non-zero without printing
the status line (`notes_table=created` is never reported) and without
writing the auxiliary files.  The three tables and the four seed rows
*are* committed — by the implicit commit and the script's autocommit, not
by line 95. -/
theorem scenario_a_crashes_at_commit :
    (run scenarioAWorld).error =
      some (RunError.operationalError "cannot commit - no transaction is active") ∧
    (run scenarioAWorld).commitSucceeded = false ∧
    (run scenarioAWorld).statusLine = none ∧
    (run scenarioAWorld).dbConnectionTxt = none ∧
    (run scenarioAWorld).created_notes = true ∧
    (run scenarioAWorld).db.tables = ["app_info", "users", "notes"] ∧
    (run scenarioAWorld).db.app_info = seedRows ∧
    (run scenarioAWorld).db.app_info.length = 4 :=
  ⟨rfl, rfl, rfl, rfl, rfl, rfl, rfl, rfl⟩

/-! ## Claim C2 -/

/-- **C2** (code bug): on an initially empty target with a valid
migration, the data half of idempotence holds — the second run leaves
exactly the same tables and the same four `app_info` key/value rows as the
first — but the reporting half is false: the first run never reports
`notes_table=created`; it dies at the explicit `COMMIT` with an uncaught
`OperationalError`.  Only the second run prints a status line, reporting
`notes_table=ready`. -/
theorem first_run_crashes_second_reports_ready :
    (run scenarioAWorld).error =
      some (RunError.operationalError "cannot commit - no transaction is active") ∧
    (run scenarioAWorld).statusLine = none ∧
    (run (worldAfter scenarioAWorld (run scenarioAWorld))).error = none ∧
    (run (worldAfter scenarioAWorld (run scenarioAWorld))).db = (run scenarioAWorld).db ∧
    (run (worldAfter scenarioAWorld (run scenarioAWorld))).statusLine =
      some "SQLite setup complete | DB=myapp.db | tables=3 | app_info_records=4 | notes_table=ready" :=
  ⟨rfl, rfl, rfl, rfl, rfl⟩

/-! ## Claim C10 -/

/-- The `created_notes` flag is true whenever the migration script was
executed (line 87 follows line 86 unconditionally on success), on every
run, whatever the script did. -/
theorem run_migrationExecuted_imp_created (u : World) :
    (run u).migrationExecuted = true → (run u).created_notes = true := by
  cases hx : (dbOf u).tables.contains "notes" with
  | true =>
    rw [run_of_notes_present u hx, finishRun_migrationExecuted, finishRun_created_notes]
    exact id
  | false =>
    cases hm : u.migrationFile with
    | none => rw [run_of_migration_missing u hx hm]; exact id
    | some s => rw [run_of_migration_present u s hx hm]; exact fun _ => rfl

/-- `createMiscScript` never creates (nor removes) a `notes` table. -/
theorem createMiscScript_no_notes (d : DB) :
    (createMiscScript d).tables.contains "notes" = d.tables.contains "notes" := by
  unfold createMiscScript
  rw [contains_append_single, show (("notes" : String) == "misc") = false from by decide,
    Bool.or_false]

/-- Under a migration that never creates `notes`, the `notes` table stays
absent across any number of runs, and the migration file persists. -/
theorem runs_notes_still_absent (n : Nat) (w : World) (s : Script)
    (hmig : w.migrationFile = some s)
    (hs : ∀ d, (s d).tables.contains "notes" = d.tables.contains "notes")
    (hnotes : (dbOf w).tables.contains "notes" = false) :
    (dbOf (runs n w)).tables.contains "notes" = false ∧
    (runs n w).migrationFile = some s := by
  induction n generalizing w with
  | zero => exact ⟨hnotes, hmig⟩
  | succ n ih =>
    have hrun := run_of_migration_present w s hnotes hmig
    have h2 : (dbOf (worldAfter w (run w))).tables.contains "notes" = false := by
      show (run w).db.tables.contains "notes" = false
      rw [hrun]
      show (s (basePending (dbOf w))).tables.contains "notes" = false
      rw [hs, basePending_contains_notes, hnotes]
    exact ih (worldAfter w (run w)) hmig h2

/-- **C10** (amended): `created_notes` is set exactly when the migration
script executed, independent of whether the script created a `notes`
table; and with a migration file that does not create `notes`, every run
re-opens and re-executes the migration script (gating looks only at the
presence of the `notes` table at the start of the run) — but no such run
ever *reports* `notes_table=created`: each dies at the explicit `COMMIT`
with an uncaught `OperationalError` before the status line. -/
theorem created_notes_tracks_execution (n : Nat) (w : World) (s : Script)
    (hmig : w.migrationFile = some s)
    (hs : ∀ d, (s d).tables.contains "notes" = d.tables.contains "notes")
    (hnotes : (dbOf w).tables.contains "notes" = false) :
    (∀ u : World, (run u).migrationExecuted = true → (run u).created_notes = true) ∧
    (run (runs n w)).migrationOpened = true ∧
    (run (runs n w)).migrationExecuted = true ∧
    (run (runs n w)).created_notes = true ∧
    (run (runs n w)).statusLine = none ∧
    (run (runs n w)).error =
      some (RunError.operationalError "cannot commit - no transaction is active") := by
  obtain ⟨ha, hm⟩ := runs_notes_still_absent n w s hmig hs hnotes
  have hr := run_of_migration_present (runs n w) s ha hm
  refine ⟨fun u => run_migrationExecuted_imp_created u, ?_, ?_, ?_, ?_, ?_⟩ <;> rw [hr]

/-- Witness for `created_notes_tracks_execution`: a fresh directory with a
migration creating only `misc`, observed at its second run. -/
theorem created_notes_tracks_execution_witness :
    (miscMigrationWorld.migrationFile = some createMiscScript ∧
     (dbOf miscMigrationWorld).tables.contains "notes" = false) ∧
    ((∀ u : World, (run u).migrationExecuted = true → (run u).created_notes = true) ∧
     (run (runs 1 miscMigrationWorld)).migrationOpened = true ∧
     (run (runs 1 miscMigrationWorld)).migrationExecuted = true ∧
     (run (runs 1 miscMigrationWorld)).created_notes = true ∧
     (run (runs 1 miscMigrationWorld)).statusLine = none ∧
     (run (runs 1 miscMigrationWorld)).error =
       some (RunError.operationalError "cannot commit - no transaction is active")) :=
  ⟨⟨rfl, by decide⟩,
   created_notes_tracks_execution 1 miscMigrationWorld createMiscScript rfl
     (fun d => createMiscScript_no_notes d) (by decide)⟩

/-- **C10** (counterexample to the claim as stated): with a migration file
that does not create a `notes` table, the run does re-execute the script
and does set `created_notes`, but it does *not* report
`notes_table=created` — it reports nothing: the status line is never
printed because the run terminates with an uncaught `OperationalError`. -/
theorem nonnotes_migration_never_reports_created :
    (run miscMigrationWorld).migrationExecuted = true ∧
    (run miscMigrationWorld).created_notes = true ∧
    (run miscMigrationWorld).db.tables.contains "notes" = false ∧
    (run miscMigrationWorld).statusLine = none ∧
    (run miscMigrationWorld).error =
      some (RunError.operationalError "cannot commit - no transaction is active") :=
  ⟨rfl, rfl, by decide, rfl, rfl⟩

/-! ## Claim C3 -/

/-- On any run whose migration file (if executed) leaves `app_info`
alone, the committed `app_info` rows at exit are the seed upserts applied
to the rows the run found: on the notes-present path via the explicit
`COMMIT`, on the migration path via the implicit commit performed by
`executescript`. -/
theorem run_app_info_of_migration (w : World) (s : Script)
    (hmig : w.migrationFile = some s)
    (hpres : ∀ d, (s d).app_info = d.app_info) :
    (run w).db.app_info = seedKV (dbOf w).app_info := by
  cases hx : (dbOf w).tables.contains "notes" with
  | true => rw [run_of_notes_present w hx, finishRun_db, basePending_app_info]
  | false =>
    rw [run_of_migration_present w s hx hmig]
    show (s (basePending (dbOf w))).app_info = _
    rw [hpres, basePending_app_info]

/-- The seed rows are a fixed point of the seed upserts. -/
theorem seedKV_seedRows : seedKV seedRows = seedRows := by decide

/-- Once `app_info` holds exactly the four seed rows, it still does after
any further number of runs (migration file present and `app_info`-
preserving). -/
theorem runs_app_info_seeded (n : Nat) (w : World) (s : Script)
    (hmig : w.migrationFile = some s)
    (hpres : ∀ d, (s d).app_info = d.app_info)
    (hinv : (dbOf w).app_info = seedRows) :
    (dbOf (runs n w)).app_info = seedRows := by
  induction n generalizing w with
  | zero => exact hinv
  | succ n ih =>
    refine ih (worldAfter w (run w)) hmig ?_
    show (run w).db.app_info = seedRows
    rw [run_app_info_of_migration w s hmig hpres, hinv, seedKV_seedRows]

/-- **C3**: starting from a fresh empty directory with a migration file
whose statements leave `app_info` alone, after any positive number of runs
the `app_info` table holds exactly one row per fixed seed key, with the
fixed literal values `project_name="notes_database"`, `version="0.1.0"`,
`author="John Doe"`, `description=""` — the `INSERT OR REPLACE` upsert is
last-writer-wins on the UNIQUE key and never leaves a duplicate; in fact
the table is exactly the four seed rows. -/
theorem seed_upsert_correct (n : Nat) (w : World) (s : Script)
    (hfresh : w.dbFile = none)
    (hmig : w.migrationFile = some s)
    (hpres : ∀ d, (s d).app_info = d.app_info) :
    (dbOf (runs (n + 1) w)).app_info = seedRows ∧
    (∀ r ∈ seedRows,
      (dbOf (runs (n + 1) w)).app_info.filter (fun x => x.key == r.key) = [r]) ∧
    (dbOf (runs (n + 1) w)).app_info.length = 4 := by
  have h1 : (dbOf (runs (n + 1) w)).app_info = seedRows := by
    show (dbOf (runs n (worldAfter w (run w)))).app_info = seedRows
    refine runs_app_info_seeded n _ s hmig hpres ?_
    show (run w).db.app_info = seedRows
    rw [run_app_info_of_migration w s hmig hpres]
    rw [show dbOf w = emptyDB from by rw [dbOf, hfresh]; rfl]
    decide
  refine ⟨h1, ?_, ?_⟩
  · rw [h1]; decide
  · rw [h1]; rfl

/-- Witness for `seed_upsert_correct`: one run on Scenario A's world. -/
theorem seed_upsert_correct_witness :
    (scenarioAWorld.dbFile = none ∧
     scenarioAWorld.migrationFile = some createNotesScript) ∧
    ((dbOf (runs (0 + 1) scenarioAWorld)).app_info = seedRows ∧
     (∀ r ∈ seedRows,
       (dbOf (runs (0 + 1) scenarioAWorld)).app_info.filter (fun x => x.key == r.key) = [r]) ∧
     (dbOf (runs (0 + 1) scenarioAWorld)).app_info.length = 4) :=
  ⟨⟨rfl, rfl⟩,
   seed_upsert_correct 0 scenarioAWorld createNotesScript rfl rfl (fun _ => rfl)⟩

/-! ## Claim C6 -/

/-- **C6** (counterexample to the claim as stated): when the
`db_visualizer` directory is absent and `os.makedirs` fails (e.g.
permission denied), the `OSError` propagates — line 127 sits outside any
try/except — and the run terminates with an uncaught error, *without*
reporting overall success: no status line is printed.  (The database
tables were committed before, and `db_connection.txt` handling did run.) -/
theorem viz_dir_failure_is_fatal :
    (run vizDenyWorld).commitSucceeded = true ∧
    (run vizDenyWorld).error = some (RunError.osError "db_visualizer") ∧
    (run vizDenyWorld).statusLine = none ∧
    (run vizDenyWorld).sqliteEnv = none :=
  ⟨rfl, rfl, rfl, rfl⟩

/-- **C6** (amended): failures *writing* either auxiliary file
(`db_connection.txt`, `db_visualizer/sqlite.env`) are caught and merely
logged as warnings — the run still commits, prints the final status line
and exits successfully, with the database state intact; but a failure of
`os.makedirs("db_visualizer")` itself is fatal (see the counterexample). -/
theorem aux_write_failures_nonfatal (w : World)
    (hnotes : (dbOf w).tables.contains "notes" = true)
    (hviz : (w.vizDirExists || w.vizDirCreatable) = true) :
    (run w).error = none ∧
    (run w).statusLine.isSome = true ∧
    (run w).commitSucceeded = true ∧
    (run w).db = basePending (dbOf w) ∧
    (w.connWritable = false →
      "Warning: Could not save connection info" ∈ (run w).warnings) ∧
    (w.envWritable = false →
      "Warning: Could not save environment variables" ∈ (run w).warnings) := by
  rw [run_of_notes_present w hnotes, finishRun_of_viz_ok w _ _ _ _ _ hviz]
  refine ⟨rfl, rfl, rfl, rfl, ?_, ?_⟩
  · intro hc; simp [hc]
  · intro he; simp [he]

/-- Witness for `aux_write_failures_nonfatal`: both auxiliary writes
denied, directory present. -/
theorem aux_write_failures_nonfatal_witness :
    ((dbOf auxDenyWorld).tables.contains "notes" = true ∧
     (auxDenyWorld.vizDirExists || auxDenyWorld.vizDirCreatable) = true) ∧
    ((run auxDenyWorld).error = none ∧
     (run auxDenyWorld).statusLine.isSome = true ∧
     (run auxDenyWorld).commitSucceeded = true ∧
     (run auxDenyWorld).db = basePending (dbOf auxDenyWorld) ∧
     (auxDenyWorld.connWritable = false →
       "Warning: Could not save connection info" ∈ (run auxDenyWorld).warnings) ∧
     (auxDenyWorld.envWritable = false →
       "Warning: Could not save environment variables" ∈ (run auxDenyWorld).warnings)) :=
  ⟨⟨by decide, rfl⟩, aux_write_failures_nonfatal auxDenyWorld (by decide) rfl⟩

/-! ## Claim C8 -/

/-- **C8** (counterexample to the claim as stated): on a successful run
the file `db_connection.txt` is written with FOUR `\n`-terminated lines,
not three — the driver-usage hint spans two comment lines (a header and a
Python example). -/
theorem db_connection_txt_has_four_lines :
    (run staleVersionWorld).error = none ∧
    (run staleVersionWorld).dbConnectionTxt = some (dbConnectionLines "/workspace") ∧
    ((run staleVersionWorld).dbConnectionTxt.getD []).length = 4 :=
  ⟨rfl, rfl, rfl⟩

/-- **C8** (amended): on every successful run with `db_connection.txt`
writable, the file is written as plain text with exactly four lines: a
comment header, a Python driver-usage hint naming the database file, a
line carrying the connection URI `sqlite:///` followed by the absolute
database path, and a line carrying the absolute file path (both prefixed
by a `# ...:` comment label). -/
theorem db_connection_txt_format (w : World)
    (hnotes : (dbOf w).tables.contains "notes" = true)
    (hviz : (w.vizDirExists || w.vizDirCreatable) = true)
    (hconn : w.connWritable = true) :
    (run w).dbConnectionTxt = some (dbConnectionLines w.cwd) ∧
    (dbConnectionLines w.cwd).length = 4 ∧
    (dbConnectionLines w.cwd).getD 2 "" =
      "# Connection string: sqlite:///" ++ w.cwd ++ "/" ++ DB_NAME ∧
    (dbConnectionLines w.cwd).getD 3 "" =
      "# File path: " ++ w.cwd ++ "/" ++ DB_NAME := by
  rw [run_of_notes_present w hnotes, finishRun_of_viz_ok w _ _ _ _ _ hviz]
  refine ⟨?_, rfl, rfl, rfl⟩
  show (if w.connWritable then some (dbConnectionLines w.cwd) else none) = _
  rw [hconn, if_pos rfl]

/-- Witness for `db_connection_txt_format` at an initialized database. -/
theorem db_connection_txt_format_witness :
    ((dbOf staleVersionWorld).tables.contains "notes" = true ∧
     (staleVersionWorld.vizDirExists || staleVersionWorld.vizDirCreatable) = true ∧
     staleVersionWorld.connWritable = true) ∧
    ((run staleVersionWorld).dbConnectionTxt =
       some (dbConnectionLines staleVersionWorld.cwd) ∧
     (dbConnectionLines staleVersionWorld.cwd).length = 4 ∧
     (dbConnectionLines staleVersionWorld.cwd).getD 2 "" =
       "# Connection string: sqlite:///" ++ staleVersionWorld.cwd ++ "/" ++ DB_NAME ∧
     (dbConnectionLines staleVersionWorld.cwd).getD 3 "" =
       "# File path: " ++ staleVersionWorld.cwd ++ "/" ++ DB_NAME) :=
  ⟨⟨by decide, rfl, rfl⟩,
   db_connection_txt_format staleVersionWorld (by decide) rfl rfl⟩

/-! ## Claim C9 -/

/-- **C9** (counterexample to the claim as stated): `INSERT OR REPLACE`
*deletes* a conflicting row.  In a pre-existing database whose `app_info`
holds the row `(version, 0.0.9)`, a successful run removes that row — its
key now maps to the fresh seed value `0.1.0` — so "no row of app_info is
removed across a run, for every pre-existing database state" is false. -/
theorem upsert_deletes_stale_seed_row :
    (⟨"version", "0.0.9"⟩ : AppInfoRow) ∈ (dbOf staleVersionWorld).app_info ∧
    (run staleVersionWorld).error = none ∧
    (⟨"version", "0.0.9"⟩ : AppInfoRow) ∉ (run staleVersionWorld).db.app_info :=
  ⟨by decide, rfl, by decide⟩

/-- A row survives an upsert under a different key. -/
theorem upsertKV_mem_of_ne (k v : String) (rows : List AppInfoRow) (r : AppInfoRow)
    (hr : r ∈ rows) (hk : r.key ≠ k) : r ∈ upsertKV k v rows := by
  unfold upsertKV
  rw [List.mem_append, List.mem_filter]
  exact Or.inl ⟨hr, by simp [hk]⟩

/-- An upsert preserves every key: some row with the same key survives. -/
theorem upsertKV_key_preserved (k v : String) (rows : List AppInfoRow) (r : AppInfoRow)
    (hr : r ∈ rows) : ∃ x ∈ upsertKV k v rows, x.key = r.key := by
  by_cases hk : r.key = k
  · refine ⟨⟨k, v⟩, ?_, hk.symm⟩
    unfold upsertKV
    rw [List.mem_append]
    exact Or.inr (List.mem_singleton.mpr rfl)
  · exact ⟨r, upsertKV_mem_of_ne k v rows r hr hk, rfl⟩

/-- The four seed upserts preserve every key. -/
theorem seedKV_key_preserved (rows : List AppInfoRow) (r : AppInfoRow)
    (hr : r ∈ rows) : ∃ x ∈ seedKV rows, x.key = r.key := by
  obtain ⟨x1, h1, e1⟩ := upsertKV_key_preserved "project_name" "notes_database" rows r hr
  obtain ⟨x2, h2, e2⟩ := upsertKV_key_preserved "version" "0.1.0" _ x1 h1
  obtain ⟨x3, h3, e3⟩ := upsertKV_key_preserved "author" "John Doe" _ x2 h2
  obtain ⟨x4, h4, e4⟩ := upsertKV_key_preserved "description" "" _ x3 h3
  exact ⟨x4, h4, by rw [e4, e3, e2, e1]⟩

/-- The four seed upserts keep every row whose key is not a seed key. -/
theorem seedKV_mem_of_nonseed (rows : List AppInfoRow) (r : AppInfoRow)
    (hr : r ∈ rows) (hk : seedKeys.contains r.key = false) :
    r ∈ seedKV rows := by
  have hmem : r.key ∉ seedKeys := by
    intro hm
    rw [(contains_eq_true_iff_mem seedKeys r.key).mpr hm] at hk
    exact absurd hk (by decide)
  simp only [seedKeys, List.mem_cons, List.not_mem_nil, or_false] at hmem
  push_neg at hmem
  obtain ⟨h1, h2, h3, h4⟩ := hmem
  exact upsertKV_mem_of_ne _ _ _ _
    (upsertKV_mem_of_ne _ _ _ _
      (upsertKV_mem_of_ne _ _ _ _
        (upsertKV_mem_of_ne _ _ _ _ hr h1) h2) h3) h4

/-- A run's database is either unchanged (missing-migration rollback) or
carries exactly the seed upserts on `app_info` with `users` untouched. -/
theorem run_db_cases (w : World)
    (hpres : ∀ s, w.migrationFile = some s →
      ∀ d, (s d).app_info = d.app_info ∧ (s d).users = d.users) :
    (run w).db = dbOf w ∨
    ((run w).db.app_info = seedKV (dbOf w).app_info ∧
     (run w).db.users = (dbOf w).users) := by
  cases hx : (dbOf w).tables.contains "notes" with
  | true =>
    right
    rw [run_of_notes_present w hx, finishRun_db]
    exact ⟨basePending_app_info _, basePending_users _⟩
  | false =>
    cases hm : w.migrationFile with
    | none => left; rw [run_of_migration_missing w hx hm]
    | some s =>
      right
      rw [run_of_migration_present w s hx hm]
      constructor
      · show (s (basePending (dbOf w))).app_info = _
        rw [(hpres s hm _).1, basePending_app_info]
      · show (s (basePending (dbOf w))).users = _
        rw [(hpres s hm _).2, basePending_users]

/-- **C9** (amended): provided the migration file's statements (if any)
leave `app_info` and `users` alone, a run never touches the `users` table
(its rows afterwards are exactly its rows before — nothing deleted and
nothing inserted), never removes an `app_info` *key* (every key present
before the run is present after it), and preserves verbatim every
`app_info` row whose key is not one of the four seed keys.  Rows under a
seed key are overwritten by the last-writer-wins upsert, which deletes the
old row and inserts the fresh seed value (see the counterexample). -/
theorem no_entity_deleted_amended (w : World)
    (hpres : ∀ s, w.migrationFile = some s →
      ∀ d, (s d).app_info = d.app_info ∧ (s d).users = d.users) :
    (run w).db.users = (dbOf w).users ∧
    (∀ r ∈ (dbOf w).app_info, ∃ x ∈ (run w).db.app_info, x.key = r.key) ∧
    (∀ r ∈ (dbOf w).app_info, seedKeys.contains r.key = false →
      r ∈ (run w).db.app_info) := by
  rcases run_db_cases w hpres with h | ⟨ha, hu⟩
  · rw [h]
    exact ⟨rfl, fun r hr => ⟨r, hr, rfl⟩, fun r hr _ => hr⟩
  · refine ⟨hu, ?_, ?_⟩
    · intro r hr
      rw [ha]
      exact seedKV_key_preserved _ r hr
    · intro r hr hk
      rw [ha]
      exact seedKV_mem_of_nonseed _ r hr hk

/-- Witness for `no_entity_deleted_amended` at a pre-existing database
with a stale seed row, a custom row and one user. -/
theorem no_entity_deleted_amended_witness :
    ((run staleVersionWorld).db.users = (dbOf staleVersionWorld).users ∧
     (∀ r ∈ (dbOf staleVersionWorld).app_info,
       ∃ x ∈ (run staleVersionWorld).db.app_info, x.key = r.key) ∧
     (∀ r ∈ (dbOf staleVersionWorld).app_info,
       seedKeys.contains r.key = false → r ∈ (run staleVersionWorld).db.app_info)) :=
  no_entity_deleted_amended staleVersionWorld (fun _ h => nomatch h)

end InitDb
